import Mathlib

/-!
Shallow embedding of the order-management-system core:
`src/backend/in_memory_storage.py` (class `InMemoryStorage`) and
`src/backend/order_tracker.py` (class `OrderTracker`).

Python order records are dictionaries with string keys; we model a dict as an
association list in insertion order (a Python dict never holds two bindings
for the same key, and `d[k] = v` updates in place for an existing key and
appends for a new one).  `dict.copy()` is value copy, which is the identity
under Lean value semantics.  Python truthiness of a dict is non-emptiness.
-/

namespace OrderSys

/-- A Python value stored in an order record: the system stores strings
(`order_id`, `item_name`, `customer_id`, `status`) and integers (`quantity`). -/
inductive Val where
  | str : String → Val
  | int : Int → Val
deriving DecidableEq

/-- A Python dict with string keys, in insertion order. -/
abbrev Dict := List (String × Val)

/-- `d.get(k)` on a Python dict: the value bound to `k`, if any. -/
def alistGet {α : Type} (k : String) : List (String × α) → Option α
  | [] => none
  | (k₀, v₀) :: rest => if k₀ = k then some v₀ else alistGet k rest

/-- `d[k] = v` on a Python dict: replace the binding for `k` in place,
or append one when `k` is absent. -/
def alistSet {α : Type} (k : String) (v : α) : List (String × α) → List (String × α)
  | [] => [(k, v)]
  | (k₀, v₀) :: rest => if k₀ = k then (k, v) :: rest else (k₀, v₀) :: alistSet k v rest

/-- `del d[k]` on a Python dict: drop the binding for `k` (dict keys are
unique, so dropping every binding with key `k` is the same operation). -/
def alistRemove {α : Type} (k : String) (l : List (String × α)) : List (String × α) :=
  l.filter (fun p => p.1 ≠ k)

/-- The `_orders` field of `InMemoryStorage`: a Python dict mapping
`order_id` to an order record. -/
abbrev Storage := List (String × Dict)

namespace InMemoryStorage

/-- `InMemoryStorage.save_order`: `self._orders[order_id] = order_data.copy()`. -/
def save_order (s : Storage) (order_id : String) (order_data : Dict) : Storage :=
  alistSet order_id order_data s

/-- `InMemoryStorage.get_order`:
`self._orders.get(order_id, {}).copy() if self._orders.get(order_id) else None`.
The condition is Python truthiness, so the result is the stored dict when it
is present and non-empty, and `None` when the key is absent or the stored
dict is empty. -/
def get_order (s : Storage) (order_id : String) : Option Dict :=
  match alistGet order_id s with
  | some d => if d.isEmpty then none else some d
  | none => none

/-- `InMemoryStorage.get_all_orders`: `{k: v.copy() for k, v in self._orders.items()}`;
value copies are the identity here. -/
def get_all_orders (s : Storage) : Storage := s

/-- `InMemoryStorage.delete_order`:
`if order_id in self._orders: del self._orders[order_id]`. -/
def delete_order (s : Storage) (order_id : String) : Storage :=
  alistRemove order_id s

end InMemoryStorage

/-- The distinguishable failure kinds raised by `OrderTracker` (each a
`ValueError` in the source, told apart by its message). -/
inductive OTError where
  | duplicateOrder (order_id : String)
  | invalidStatus (status : String)
  | orderNotFound (order_id : String)
deriving DecidableEq

namespace OrderTracker

/-- `self.valid_statuses = {"pending", "processing", "shipped"}` (only
membership is ever used, so a list models the Python set). -/
def valid_statuses : List String := ["pending", "processing", "shipped"]

/-- The record literal built by `OrderTracker.add_order`. -/
def mkOrder (order_id item_name : String) (quantity : Int)
    (customer_id status : String) : Dict :=
  [("order_id", .str order_id), ("item_name", .str item_name),
   ("quantity", .int quantity), ("customer_id", .str customer_id),
   ("status", .str status)]

/-- `OrderTracker.add_order`: reject a duplicate `order_id` (truthy
`get_order` result), then an invalid status, then save the five-field
record.  The `status` parameter defaults to `"pending"` as in the source. -/
def add_order (s : Storage) (order_id item_name : String) (quantity : Int)
    (customer_id : String) (status : String := "pending") : Except OTError Storage :=
  if (InMemoryStorage.get_order s order_id).isSome then
    .error (.duplicateOrder order_id)
  else if !(valid_statuses.contains status) then
    .error (.invalidStatus status)
  else
    .ok (InMemoryStorage.save_order s order_id
      (mkOrder order_id item_name quantity customer_id status))

/-- `OrderTracker.get_order_by_id`: pass-through to `storage.get_order`. -/
def get_order_by_id (s : Storage) (order_id : String) : Option Dict :=
  InMemoryStorage.get_order s order_id

/-- `OrderTracker.update_order_status`: fetch the record (`if not order:`
fails exactly when `get_order` returned `None`, since `get_order` never
returns an empty dict), then validate the status, then set the record's
`"status"` key and save the whole record back. -/
def update_order_status (s : Storage) (order_id new_status : String) :
    Except OTError Storage :=
  match InMemoryStorage.get_order s order_id with
  | none => .error (.orderNotFound order_id)
  | some order =>
    if !(valid_statuses.contains new_status) then
      .error (.invalidStatus new_status)
    else
      .ok (InMemoryStorage.save_order s order_id
        (alistSet "status" (.str new_status) order))

/-- `OrderTracker.list_all_orders`: pass-through to `storage.get_all_orders`. -/
def list_all_orders (s : Storage) : Storage :=
  InMemoryStorage.get_all_orders s

/-- `OrderTracker.list_orders_by_status`:
`[order for order in all_orders.values() if order.get("status") == status]`.
`order.get("status")` is `None` when the key is absent, and `None == status`
and `int == str` are both `False` in Python, so the filter keeps exactly the
records whose `"status"` key holds the string `status`. -/
def list_orders_by_status (s : Storage) (status : String) : List Dict :=
  ((InMemoryStorage.get_all_orders s).map Prod.snd).filter
    (fun order => decide (alistGet "status" order = some (.str status)))

/-- `OrderTracker.delete_order`: fetch the record, fail when absent,
otherwise delegate to `storage.delete_order`. -/
def delete_order (s : Storage) (order_id : String) : Except OTError Storage :=
  match InMemoryStorage.get_order s order_id with
  | none => .error (.orderNotFound order_id)
  | some _ => .ok (InMemoryStorage.delete_order s order_id)

/-- The Python storage argument of `OrderTracker.__init__`, abstracted to
the set of attribute names it exposes as callables. -/
structure PyStorageObj where
  callable_methods : List String
deriving DecidableEq

/-- `required_methods = ["save_order", "get_order", "get_all_orders"]`
from `OrderTracker.__init__`. -/
def required_methods : List String := ["save_order", "get_order", "get_all_orders"]

/-- `OrderTracker.__init__`: raise `TypeError` (with the message of the
source f-string) at the first required method the storage object does not
expose as a callable; otherwise construction succeeds. -/
def tracker_init (storage : PyStorageObj) : Except String Unit :=
  match required_methods.find? (fun m => !(storage.callable_methods.contains m)) with
  | some m => .error ("Storage object must implement a callable " ++ m ++ " method.")
  | none => .ok ()

end OrderTracker

/-! ### Association-list lemmas shared by the claim proofs -/

theorem alistGet_set_self {α : Type} (k : String) (v : α) (l : List (String × α)) :
    alistGet k (alistSet k v l) = some v := by
  induction l with
  | nil => simp [alistGet, alistSet]
  | cons p rest ih =>
    by_cases h : p.1 = k
    · simp [alistSet, alistGet, h]
    · simp [alistSet, alistGet, h, ih]

theorem alistGet_set_ne {α : Type} {k k₁ : String} (v : α) (l : List (String × α))
    (h : k₁ ≠ k) : alistGet k₁ (alistSet k v l) = alistGet k₁ l := by
  have hk : ¬(k = k₁) := fun h₀ => h h₀.symm
  induction l with
  | nil => simp [alistGet, alistSet, hk]
  | cons p rest ih =>
    by_cases hp : p.1 = k
    · simp [alistSet, alistGet, hp, hk]
    · simp [alistSet, alistGet, hp, ih]

theorem alistGet_remove_self {α : Type} (k : String) (l : List (String × α)) :
    alistGet k (alistRemove k l) = none := by
  induction l with
  | nil => simp [alistGet, alistRemove]
  | cons p rest ih =>
    by_cases hp : p.1 = k
    · simpa [alistRemove, hp] using ih
    · simpa [alistRemove, alistGet, hp] using ih

theorem alistGet_remove_ne {α : Type} {k k₁ : String} (l : List (String × α))
    (h : k₁ ≠ k) : alistGet k₁ (alistRemove k l) = alistGet k₁ l := by
  have hk : ¬(k = k₁) := fun h₀ => h h₀.symm
  induction l with
  | nil => simp [alistRemove]
  | cons p rest ih =>
    by_cases hp : p.1 = k
    · simpa [alistRemove, alistGet, hp, hk] using ih
    · by_cases hq : p.1 = k₁
      · simp [alistRemove, alistGet, List.filter_cons, hp, hq, h]
      · simpa [alistRemove, alistGet, List.filter_cons, hp, hq] using ih

theorem alistSet_ne_nil {α : Type} (k : String) (v : α) (l : List (String × α)) :
    alistSet k v l ≠ [] := by
  cases l with
  | nil => simp [alistSet]
  | cons p rest =>
    by_cases hp : p.1 = k <;> simp [alistSet, hp]

theorem alistGet_mem {α : Type} {k : String} {v : α} :
    ∀ {l : List (String × α)}, alistGet k l = some v → (k, v) ∈ l := by
  intro l
  induction l with
  | nil => intro h; simp [alistGet] at h
  | cons q rest ih =>
    obtain ⟨k₀, v₀⟩ := q
    intro h
    by_cases hq : k₀ = k
    · rw [alistGet, if_pos hq] at h
      injection h with h
      subst h; subst hq
      exact List.mem_cons_self _ _
    · rw [alistGet, if_neg hq] at h
      exact List.mem_cons_of_mem _ (ih h)

theorem mem_alistSet {α : Type} {k : String} {v : α} {p : String × α} :
    ∀ {l : List (String × α)}, p ∈ alistSet k v l → p = (k, v) ∨ p ∈ l := by
  intro l
  induction l with
  | nil => intro h; simp [alistSet] at h; exact Or.inl h
  | cons q rest ih =>
    obtain ⟨k₀, v₀⟩ := q
    intro h
    by_cases hq : k₀ = k
    · rw [alistSet, if_pos hq] at h
      rcases List.mem_cons.mp h with h | h
      · exact Or.inl h
      · exact Or.inr (List.mem_cons_of_mem _ h)
    · rw [alistSet, if_neg hq] at h
      rcases List.mem_cons.mp h with h | h
      · exact Or.inr (h ▸ List.mem_cons_self _ _)
      · rcases ih h with h | h
        · exact Or.inl h
        · exact Or.inr (List.mem_cons_of_mem _ h)

/-! ### Behaviour of `InMemoryStorage.get_order` after the mutating operations -/

theorem get_order_save_self_of_ne_nil (s : Storage) (id : String) {d : Dict}
    (h : d ≠ []) :
    InMemoryStorage.get_order (InMemoryStorage.save_order s id d) id = some d := by
  cases d with
  | nil => exact absurd rfl h
  | cons a t =>
    simp [InMemoryStorage.get_order, InMemoryStorage.save_order, alistGet_set_self]

theorem get_order_save_ne {y x : String} (s : Storage) (d : Dict) (h : y ≠ x) :
    InMemoryStorage.get_order (InMemoryStorage.save_order s x d) y =
      InMemoryStorage.get_order s y := by
  simp [InMemoryStorage.get_order, InMemoryStorage.save_order, alistGet_set_ne d s h]

theorem get_order_delete_self (s : Storage) (id : String) :
    InMemoryStorage.get_order (InMemoryStorage.delete_order s id) id = none := by
  simp [InMemoryStorage.get_order, InMemoryStorage.delete_order, alistGet_remove_self]

theorem get_order_delete_ne {y x : String} (s : Storage) (h : y ≠ x) :
    InMemoryStorage.get_order (InMemoryStorage.delete_order s x) y =
      InMemoryStorage.get_order s y := by
  simp [InMemoryStorage.get_order, InMemoryStorage.delete_order, alistGet_remove_ne s h]

theorem get_order_eq_none_iff (s : Storage) (id : String) :
    InMemoryStorage.get_order s id = none ↔
      alistGet id s = none ∨ alistGet id s = some [] := by
  unfold InMemoryStorage.get_order
  cases hg : alistGet id s with
  | none => simp
  | some d => cases d <;> simp

theorem get_order_eq_some_iff (s : Storage) (id : String) (d : Dict) :
    InMemoryStorage.get_order s id = some d ↔ alistGet id s = some d ∧ d ≠ [] := by
  unfold InMemoryStorage.get_order
  cases hg : alistGet id s with
  | none => simp
  | some e =>
    cases e with
    | nil =>
      constructor
      · intro h; simp at h
      · rintro ⟨h, hne⟩
        exact absurd (Option.some.inj h).symm hne
    | cons a t =>
      constructor
      · intro h
        simp at h
        exact ⟨by rw [h], by rw [← h]; simp⟩
      · rintro ⟨h, _⟩
        obtain rfl : (a :: t : Dict) = d := Option.some.inj h
        simp

theorem mkOrder_ne_nil (order_id item_name : String) (quantity : Int)
    (customer_id status : String) :
    OrderTracker.mkOrder order_id item_name quantity customer_id status ≠ [] := by
  simp [OrderTracker.mkOrder]

/-! ### Success and failure characterizations of the tracker operations -/

theorem add_order_ok_iff (s : Storage) (order_id item_name : String) (quantity : Int)
    (customer_id status : String) (s' : Storage) :
    OrderTracker.add_order s order_id item_name quantity customer_id status = .ok s' ↔
      InMemoryStorage.get_order s order_id = none ∧
      status ∈ OrderTracker.valid_statuses ∧
      s' = InMemoryStorage.save_order s order_id
        (OrderTracker.mkOrder order_id item_name quantity customer_id status) := by
  unfold OrderTracker.add_order
  cases hg : InMemoryStorage.get_order s order_id with
  | some d => simp [hg]
  | none =>
    by_cases hst : status ∈ OrderTracker.valid_statuses
    · simp [hg, hst, eq_comm]
    · simp [hg, hst]

theorem update_order_status_ok_iff (s : Storage) (order_id new_status : String)
    (s' : Storage) :
    OrderTracker.update_order_status s order_id new_status = .ok s' ↔
      ∃ d, InMemoryStorage.get_order s order_id = some d ∧
        new_status ∈ OrderTracker.valid_statuses ∧
        s' = InMemoryStorage.save_order s order_id
          (alistSet "status" (.str new_status) d) := by
  unfold OrderTracker.update_order_status
  cases hg : InMemoryStorage.get_order s order_id with
  | none => simp [hg]
  | some d =>
    by_cases hst : new_status ∈ OrderTracker.valid_statuses
    · simp [hg, hst, eq_comm]
    · simp [hg, hst]

theorem update_order_status_notfound_iff (s : Storage) (order_id new_status : String) :
    OrderTracker.update_order_status s order_id new_status =
        .error (.orderNotFound order_id) ↔
      InMemoryStorage.get_order s order_id = none := by
  unfold OrderTracker.update_order_status
  cases hg : InMemoryStorage.get_order s order_id with
  | none => simp [hg]
  | some d =>
    by_cases hst : new_status ∈ OrderTracker.valid_statuses <;> simp [hg, hst]

theorem delete_order_ok_iff (s : Storage) (order_id : String) (s' : Storage) :
    OrderTracker.delete_order s order_id = .ok s' ↔
      (InMemoryStorage.get_order s order_id).isSome ∧
      s' = InMemoryStorage.delete_order s order_id := by
  unfold OrderTracker.delete_order
  cases hg : InMemoryStorage.get_order s order_id <;> simp [hg, eq_comm]

theorem delete_order_notfound_iff (s : Storage) (order_id : String) :
    OrderTracker.delete_order s order_id = .error (.orderNotFound order_id) ↔
      InMemoryStorage.get_order s order_id = none := by
  unfold OrderTracker.delete_order
  cases hg : InMemoryStorage.get_order s order_id <;> simp [hg]

theorem get_order_none_iff_of_inv (s : Storage) (id : String)
    (hinv : ∀ p ∈ s, p.2 ≠ ([] : Dict)) :
    InMemoryStorage.get_order s id = none ↔ alistGet id s = none := by
  rw [get_order_eq_none_iff]
  constructor
  · rintro (h | h)
    · exact h
    · exact absurd rfl (hinv (id, []) (alistGet_mem h))
  · exact Or.inl

/-! ### The tracker never stores an empty record

Every record saved by a tracker operation has at least the `"status"` key, so
on every state reachable through the tracker all stored dicts are non-empty
(the hypothesis used by the existence-precondition claim below). -/

theorem add_order_preserves_ne_nil (s s' : Storage) (order_id item_name : String)
    (quantity : Int) (customer_id status : String)
    (hinv : ∀ p ∈ s, p.2 ≠ ([] : Dict))
    (h : OrderTracker.add_order s order_id item_name quantity customer_id status = .ok s') :
    ∀ p ∈ s', p.2 ≠ ([] : Dict) := by
  obtain ⟨-, -, rfl⟩ := (add_order_ok_iff s order_id item_name quantity customer_id status s').mp h
  intro p hp
  rcases mem_alistSet hp with rfl | hp
  · exact mkOrder_ne_nil order_id item_name quantity customer_id status
  · exact hinv p hp

theorem update_order_status_preserves_ne_nil (s s' : Storage) (order_id new_status : String)
    (hinv : ∀ p ∈ s, p.2 ≠ ([] : Dict))
    (h : OrderTracker.update_order_status s order_id new_status = .ok s') :
    ∀ p ∈ s', p.2 ≠ ([] : Dict) := by
  obtain ⟨d, -, -, rfl⟩ := (update_order_status_ok_iff s order_id new_status s').mp h
  intro p hp
  rcases mem_alistSet hp with rfl | hp
  · exact alistSet_ne_nil "status" (.str new_status) d
  · exact hinv p hp

theorem delete_order_preserves_ne_nil (s s' : Storage) (order_id : String)
    (hinv : ∀ p ∈ s, p.2 ≠ ([] : Dict))
    (h : OrderTracker.delete_order s order_id = .ok s') :
    ∀ p ∈ s', p.2 ≠ ([] : Dict) := by
  obtain ⟨-, rfl⟩ := (delete_order_ok_iff s order_id s').mp h
  intro p hp
  exact hinv p (List.mem_filter.mp hp).1

/-! ### The claims -/

/-- C1: after a successful `add` of an `order_id`, a subsequent `add` with the
same `order_id` (any other arguments) fails with DuplicateOrder, and the
record stored by the first `add` is still what `get` returns (the failed call
produces only the error and no new state, so it changes nothing). -/
theorem claim_C1 (s s' : Storage) (order_id item_name : String) (quantity : Int)
    (customer_id status item₂ : String) (q₂ : Int) (c₂ st₂ : String)
    (h : OrderTracker.add_order s order_id item_name quantity customer_id status = .ok s') :
    OrderTracker.add_order s' order_id item₂ q₂ c₂ st₂ =
        .error (.duplicateOrder order_id) ∧
      OrderTracker.get_order_by_id s' order_id =
        some (OrderTracker.mkOrder order_id item_name quantity customer_id status) := by
  obtain ⟨hg, hst, rfl⟩ :=
    (add_order_ok_iff s order_id item_name quantity customer_id status s').mp h
  have hget := get_order_save_self_of_ne_nil s order_id
    (mkOrder_ne_nil order_id item_name quantity customer_id status)
  constructor
  · unfold OrderTracker.add_order
    simp [hget]
  · simpa [OrderTracker.get_order_by_id] using hget

theorem claim_C1_witness :
    OrderTracker.add_order
        [("A1", OrderTracker.mkOrder "A1" "Pen" 5 "C1" "pending")]
        "A1" "Pencil" 2 "C2" "shipped" = .error (.duplicateOrder "A1") ∧
      OrderTracker.get_order_by_id
        [("A1", OrderTracker.mkOrder "A1" "Pen" 5 "C1" "pending")] "A1" =
        some (OrderTracker.mkOrder "A1" "Pen" 5 "C1" "pending") :=
  claim_C1 [] _ "A1" "Pen" 5 "C1" "pending" "Pencil" 2 "C2" "shipped" rfl

/-- C2: with a fresh `order_id` for `add` and an existing one for
`update_status`, both operations succeed exactly when the supplied status is
one of `pending`, `processing`, `shipped`, and otherwise both fail with
InvalidStatus carrying the offending value. -/
theorem claim_C2 (s : Storage) (order_id item_name : String) (quantity : Int)
    (customer_id id₂ status : String)
    (hfresh : InMemoryStorage.get_order s order_id = none)
    (hexists : (InMemoryStorage.get_order s id₂).isSome) :
    ((∃ t, OrderTracker.add_order s order_id item_name quantity customer_id status = .ok t) ↔
        status ∈ OrderTracker.valid_statuses) ∧
    (status ∉ OrderTracker.valid_statuses →
        OrderTracker.add_order s order_id item_name quantity customer_id status =
          .error (.invalidStatus status)) ∧
    ((∃ t, OrderTracker.update_order_status s id₂ status = .ok t) ↔
        status ∈ OrderTracker.valid_statuses) ∧
    (status ∉ OrderTracker.valid_statuses →
        OrderTracker.update_order_status s id₂ status = .error (.invalidStatus status)) := by
  obtain ⟨d, hd⟩ := Option.isSome_iff_exists.mp hexists
  refine ⟨⟨?_, ?_⟩, ?_, ⟨?_, ?_⟩, ?_⟩
  · rintro ⟨t, ht⟩
    exact ((add_order_ok_iff s order_id item_name quantity customer_id status t).mp ht).2.1
  · intro hst
    exact ⟨_, (add_order_ok_iff s order_id item_name quantity customer_id status _).mpr
      ⟨hfresh, hst, rfl⟩⟩
  · intro hst
    unfold OrderTracker.add_order
    simp [hfresh, hst]
  · rintro ⟨t, ht⟩
    obtain ⟨e, -, he, -⟩ := (update_order_status_ok_iff s id₂ status t).mp ht
    exact he
  · intro hst
    exact ⟨_, (update_order_status_ok_iff s id₂ status _).mpr ⟨d, hd, hst, rfl⟩⟩
  · intro hst
    unfold OrderTracker.update_order_status
    simp [hd, hst]

theorem claim_C2_witness :
    OrderTracker.add_order [("A1", OrderTracker.mkOrder "A1" "Pen" 5 "C1" "pending")]
        "B1" "Ruler" 1 "C2" "draft" = .error (.invalidStatus "draft") :=
  (claim_C2 [("A1", OrderTracker.mkOrder "A1" "Pen" 5 "C1" "pending")]
    "B1" "Ruler" 1 "C2" "A1" "draft" rfl rfl).2.1 (by decide)

/-- C3: on a state in which every stored record is non-empty (which every
tracker-reachable state is — see the preservation lemmas above),
`update_status` and `delete` fail with OrderNotFound exactly when `order_id`
is unbound in storage; in particular the new status is arbitrary here, so an
absent record with an invalid status still surfaces OrderNotFound (existence
is checked first).  A failing call produces only the error and no new state,
so no mutation occurs on failure. -/
theorem claim_C3 (s : Storage) (order_id new_status : String)
    (hinv : ∀ p ∈ s, p.2 ≠ ([] : Dict)) :
    (OrderTracker.update_order_status s order_id new_status =
        .error (.orderNotFound order_id) ↔ alistGet order_id s = none) ∧
    (OrderTracker.delete_order s order_id = .error (.orderNotFound order_id) ↔
        alistGet order_id s = none) := by
  rw [update_order_status_notfound_iff, delete_order_notfound_iff,
    get_order_none_iff_of_inv s order_id hinv]
  exact ⟨Iff.rfl, Iff.rfl⟩

theorem claim_C3_witness :
    OrderTracker.update_order_status
        [("A1", OrderTracker.mkOrder "A1" "Pen" 5 "C1" "pending")] "B1" "bogus" =
      .error (.orderNotFound "B1") :=
  (claim_C3 [("A1", OrderTracker.mkOrder "A1" "Pen" 5 "C1" "pending")]
    "B1" "bogus" (by decide)).1.mpr rfl

/-- C4: for a valid add payload (fresh `order_id`, status in the valid set),
`get` immediately after the successful `add` returns the record with exactly
the five submitted fields; when the status argument is omitted it defaults to
`"pending"`. -/
theorem claim_C4 (s : Storage) (order_id item_name : String) (quantity : Int)
    (customer_id status : String)
    (hfresh : InMemoryStorage.get_order s order_id = none)
    (hst : status ∈ OrderTracker.valid_statuses) :
    (∃ s', OrderTracker.add_order s order_id item_name quantity customer_id status = .ok s' ∧
        OrderTracker.get_order_by_id s' order_id =
          some (OrderTracker.mkOrder order_id item_name quantity customer_id status)) ∧
    (∃ s₀, OrderTracker.add_order s order_id item_name quantity customer_id = .ok s₀ ∧
        OrderTracker.get_order_by_id s₀ order_id =
          some (OrderTracker.mkOrder order_id item_name quantity customer_id "pending")) := by
  constructor
  · refine ⟨_, (add_order_ok_iff s order_id item_name quantity customer_id status _).mpr
      ⟨hfresh, hst, rfl⟩, ?_⟩
    simpa [OrderTracker.get_order_by_id] using get_order_save_self_of_ne_nil s order_id
      (mkOrder_ne_nil order_id item_name quantity customer_id status)
  · refine ⟨_, (add_order_ok_iff s order_id item_name quantity customer_id "pending" _).mpr
      ⟨hfresh, by decide, rfl⟩, ?_⟩
    simpa [OrderTracker.get_order_by_id] using get_order_save_self_of_ne_nil s order_id
      (mkOrder_ne_nil order_id item_name quantity customer_id "pending")

theorem claim_C4_witness :
    ∃ s', OrderTracker.add_order [] "A1" "Pen" 5 "C1" "shipped" = .ok s' ∧
      OrderTracker.get_order_by_id s' "A1" =
        some (OrderTracker.mkOrder "A1" "Pen" 5 "C1" "shipped") :=
  (claim_C4 [] "A1" "Pen" 5 "C1" "shipped" rfl (by decide)).1

/-- C5: when `update_status` succeeds, the stored record afterwards is the old
record with only its `"status"` key set to the new value: the status field
reads back as the new status and every other key reads back unchanged. -/
theorem claim_C5 (s s' : Storage) (order_id new_status : String)
    (h : OrderTracker.update_order_status s order_id new_status = .ok s') :
    ∃ d, InMemoryStorage.get_order s order_id = some d ∧
      OrderTracker.get_order_by_id s' order_id =
        some (alistSet "status" (.str new_status) d) ∧
      alistGet "status" (alistSet "status" (.str new_status) d) =
        some (.str new_status) ∧
      ∀ k, k ≠ "status" →
        alistGet k (alistSet "status" (.str new_status) d) = alistGet k d := by
  obtain ⟨d, hd, -, rfl⟩ := (update_order_status_ok_iff s order_id new_status s').mp h
  refine ⟨d, hd, ?_, alistGet_set_self "status" (.str new_status) d,
    fun k hk => alistGet_set_ne (.str new_status) d hk⟩
  simpa [OrderTracker.get_order_by_id] using get_order_save_self_of_ne_nil s order_id
    (alistSet_ne_nil "status" (.str new_status) d)

theorem claim_C5_witness :
    ∃ d, InMemoryStorage.get_order
        [("A1", OrderTracker.mkOrder "A1" "Pen" 5 "C1" "pending")] "A1" = some d ∧
      OrderTracker.get_order_by_id
        [("A1", alistSet "status" (.str "shipped")
            (OrderTracker.mkOrder "A1" "Pen" 5 "C1" "pending"))] "A1" =
        some (alistSet "status" (.str "shipped") d) ∧
      alistGet "status" (alistSet "status" (.str "shipped") d) =
        some (.str "shipped") ∧
      ∀ k, k ≠ "status" →
        alistGet k (alistSet "status" (.str "shipped") d) = alistGet k d :=
  claim_C5 [("A1", OrderTracker.mkOrder "A1" "Pen" 5 "C1" "pending")] _ "A1" "shipped" rfl

/-- C6: for every filter value (valid status or not), `list_by_status` holds
exactly the records of `list_all` whose `"status"` field is that exact string,
and it is the empty list — never an error — when no stored record matches. -/
theorem claim_C6 (s : Storage) (status : String) :
    (∀ o, o ∈ OrderTracker.list_orders_by_status s status ↔
        (∃ k, (k, o) ∈ OrderTracker.list_all_orders s) ∧
          alistGet "status" o = some (.str status)) ∧
    ((∀ p ∈ OrderTracker.list_all_orders s, alistGet "status" p.2 ≠ some (.str status)) →
        OrderTracker.list_orders_by_status s status = []) := by
  constructor
  · intro o
    simp only [OrderTracker.list_orders_by_status, OrderTracker.list_all_orders,
      InMemoryStorage.get_all_orders, List.mem_filter, List.mem_map, decide_eq_true_eq]
    constructor
    · rintro ⟨⟨p, hp, rfl⟩, hst⟩
      exact ⟨⟨p.1, by simpa using hp⟩, hst⟩
    · rintro ⟨⟨k, hk⟩, hst⟩
      exact ⟨⟨(k, o), hk, rfl⟩, hst⟩
  · intro hnone
    rw [OrderTracker.list_orders_by_status]
    refine List.filter_eq_nil_iff.mpr ?_
    intro o ho
    obtain ⟨p, hp, rfl⟩ := List.mem_map.mp ho
    simpa using hnone p hp

theorem claim_C6_witness :
    OrderTracker.list_orders_by_status
      [("A1", OrderTracker.mkOrder "A1" "Pen" 5 "C1" "pending")] "processing" = [] :=
  (claim_C6 [("A1", OrderTracker.mkOrder "A1" "Pen" 5 "C1" "pending")]
    "processing").2 (by decide)

/-- C7: after `delete` succeeds, `get` on the same id returns the absent
signal (`none`, not an error), and deleting the same id again fails with
OrderNotFound. -/
theorem claim_C7 (s s' : Storage) (order_id : String)
    (h : OrderTracker.delete_order s order_id = .ok s') :
    OrderTracker.get_order_by_id s' order_id = none ∧
      OrderTracker.delete_order s' order_id = .error (.orderNotFound order_id) := by
  obtain ⟨-, rfl⟩ := (delete_order_ok_iff s order_id s').mp h
  refine ⟨?_, ?_⟩
  · simpa [OrderTracker.get_order_by_id] using get_order_delete_self s order_id
  · exact (delete_order_notfound_iff _ order_id).mpr (get_order_delete_self s order_id)

theorem claim_C7_witness :
    OrderTracker.get_order_by_id ([] : Storage) "A1" = none ∧
      OrderTracker.delete_order ([] : Storage) "A1" = .error (.orderNotFound "A1") :=
  claim_C7 [("A1", OrderTracker.mkOrder "A1" "Pen" 5 "C1" "pending")] [] "A1" rfl

/-- C8 counterexample: `save_order` stores a record with no fields under
`"X1"` (first conjunct: the binding is present in the raw dict), yet
`get_order` reports absent for it (second conjunct), because the source tests
Python truthiness (`if self._orders.get(order_id)`) and an empty dict is
falsy.  This contradicts the claim that `get` reports absent only when no
record exists. -/
theorem claim_C8_counterexample :
    alistGet "X1" (InMemoryStorage.save_order [] "X1" []) = some [] ∧
      InMemoryStorage.get_order (InMemoryStorage.save_order [] "X1" []) "X1" = none :=
  ⟨rfl, rfl⟩

/-- C8 amended: `get_order` returns (a copy of) the stored record exactly when
a record is bound to the id and that record is non-empty; it reports absent
exactly when the id is unbound or the stored record is the empty dict. -/
theorem claim_C8 (s : Storage) (id : String) :
    (∀ d, InMemoryStorage.get_order s id = some d ↔
        alistGet id s = some d ∧ d ≠ []) ∧
    (InMemoryStorage.get_order s id = none ↔
        alistGet id s = none ∨ alistGet id s = some []) :=
  ⟨fun d => get_order_eq_some_iff s id d, get_order_eq_none_iff s id⟩

/-- C9 counterexample: a storage object exposing only the three methods
`save_order`, `get_order`, `get_all_orders` — and in particular lacking
`delete_order` — is accepted by the constructor, contradicting the claim that
construction checks all four operations of the storage capability set. -/
theorem claim_C9_counterexample :
    OrderTracker.tracker_init ⟨["save_order", "get_order", "get_all_orders"]⟩ = .ok () ∧
      "delete_order" ∉
        (OrderTracker.PyStorageObj.mk
          ["save_order", "get_order", "get_all_orders"]).callable_methods :=
  ⟨rfl, by decide⟩

/-- C9 amended: construction structurally checks exactly the three methods
`save_order`, `get_order`, `get_all_orders` — construction succeeds iff all
three are present as callables, and `delete_order` is not among the checked
methods. -/
theorem claim_C9 (storage : OrderTracker.PyStorageObj) :
    (OrderTracker.tracker_init storage = .ok () ↔
        "save_order" ∈ storage.callable_methods ∧
        "get_order" ∈ storage.callable_methods ∧
        "get_all_orders" ∈ storage.callable_methods) ∧
      "delete_order" ∉ OrderTracker.required_methods := by
  constructor
  · by_cases h1 : "save_order" ∈ storage.callable_methods <;>
      by_cases h2 : "get_order" ∈ storage.callable_methods <;>
        by_cases h3 : "get_all_orders" ∈ storage.callable_methods <;>
          simp [OrderTracker.tracker_init, OrderTracker.required_methods,
            List.find?, h1, h2, h3]
  · decide

/-- C10: a tracker operation targeting id `x` leaves the record of every
other id `y` untouched: whenever `add`, `update_status` or `delete` on `x`
succeeds, `get(y)` is the same before and after (and a failing call produces
only the error and no new state, so it trivially changes nothing). -/
theorem claim_C10 (s : Storage) (x y : String) (hxy : y ≠ x) :
    (∀ (item_name : String) (quantity : Int) (customer_id status : String) (s' : Storage),
        OrderTracker.add_order s x item_name quantity customer_id status = .ok s' →
          OrderTracker.get_order_by_id s' y = OrderTracker.get_order_by_id s y) ∧
    (∀ (new_status : String) (s' : Storage),
        OrderTracker.update_order_status s x new_status = .ok s' →
          OrderTracker.get_order_by_id s' y = OrderTracker.get_order_by_id s y) ∧
    (∀ s' : Storage,
        OrderTracker.delete_order s x = .ok s' →
          OrderTracker.get_order_by_id s' y = OrderTracker.get_order_by_id s y) := by
  refine ⟨?_, ?_, ?_⟩
  · intro item_name quantity customer_id status s' h
    obtain ⟨-, -, rfl⟩ := (add_order_ok_iff s x item_name quantity customer_id status s').mp h
    simpa [OrderTracker.get_order_by_id] using get_order_save_ne s
      (OrderTracker.mkOrder x item_name quantity customer_id status) hxy
  · intro new_status s' h
    obtain ⟨d, -, -, rfl⟩ := (update_order_status_ok_iff s x new_status s').mp h
    simpa [OrderTracker.get_order_by_id] using get_order_save_ne s
      (alistSet "status" (.str new_status) d) hxy
  · intro s' h
    obtain ⟨-, rfl⟩ := (delete_order_ok_iff s x s').mp h
    simpa [OrderTracker.get_order_by_id] using get_order_delete_ne s hxy

theorem claim_C10_witness :
    OrderTracker.get_order_by_id ([] : Storage) "B1" =
      OrderTracker.get_order_by_id
        [("A1", OrderTracker.mkOrder "A1" "Pen" 5 "C1" "pending")] "B1" :=
  (claim_C10 [("A1", OrderTracker.mkOrder "A1" "Pen" 5 "C1" "pending")]
    "A1" "B1" (by decide)).2.2 [] rfl

end OrderSys
